import Mathlib

/-!
Verification of the data-acquisition and normalization core of the
earthquake-dashboard application (`earthquakeApp.py`).

The program is dynamically typed Python working over parsed JSON, so the
embedding is built on a `Json` value type together with Python-faithful
primitive operations: membership (`in`), subscripting, `dict.get`,
`len`, positional indexing, and truthiness.  Operations that can raise a
Python exception return `Except PyErr`.  The two functions under
verification, `fetch_earthquake_data` and `process_earthquake_data`, are
translated statement by statement from the source; the network call made
by the Fetcher is abstracted as a `NetOutcome` input describing what the
single `requests.get` invocation produced.
-/

set_option autoImplicit false

/-- Parsed JSON values, as returned by `response.json()`. -/
inductive Json where
| null
| bool (b : Bool)
| num (q : Rat)
| str (s : String)
| arr (xs : List Json)
| obj (kvs : List (String × Json))

/-- Kinds of Python exceptions the embedded operations can raise. -/
inductive PyErr where
| typeError
| indexError
| attributeError
| keyError

/-- First-match association lookup.  Python `dict`s have unique keys
(`json.loads` keeps the last duplicate key), so on the images of real
payloads first-match and last-match lookup agree; keys are assumed
unique. -/
def lookupJ : List (String × Json) → String → Option Json
| [], _ => none
| (k, v) :: rest, key => if k = key then some v else lookupJ rest key

/-- Python truthiness (`not data` is the negation of this). -/
def Json.falsy : Json → Bool
| .null => true
| .bool b => !b
| .num q => decide (q = 0)
| .str s => decide (s = "")
| .arr xs => xs.isEmpty
| .obj kvs => kvs.isEmpty

/-- Whether the character list `pat` occurs contiguously in `l`
(Python substring containment). -/
def subOccurs (pat : List Char) : List Char → Bool
| [] => pat.isEmpty
| c :: rest => pat.isPrefixOf (c :: rest) || subOccurs pat rest

/-- Python `key in container` for a string key.  On a dict it is key
membership; on a list it is element membership (equality with the
string, false against values of any other type); on a string it is
substring containment; on any other value it raises `TypeError`. -/
def pyContains (container : Json) (key : String) : Except PyErr Bool :=
  match container with
  | .obj kvs => .ok (lookupJ kvs key).isSome
  | .arr xs => .ok (xs.any fun x => match x with | .str s => decide (s = key) | _ => false)
  | .str s => .ok (subOccurs key.toList s.toList)
  | _ => .error .typeError

/-- Python `container[key]` for a string key: dict lookup (raising
`KeyError` when the key is missing); a string subscript on a list or a
string raises `TypeError`, as does subscripting any scalar. -/
def pySubscript (container : Json) (key : String) : Except PyErr Json :=
  match container with
  | .obj kvs =>
    match lookupJ kvs key with
    | some v => .ok v
    | none => .error .keyError
  | _ => .error .typeError

/-- Python `len(container)`: defined on strings, lists and dicts, a
`TypeError` on every other value. -/
def pyLen : Json → Except PyErr Nat
| .str s => .ok s.length
| .arr xs => .ok xs.length
| .obj kvs => .ok kvs.length
| _ => .error .typeError

/-- Python iteration (`for x in container`): a list yields its
elements, a string its one-character substrings, a dict its keys; any
other value raises `TypeError`. -/
def pyIter : Json → Except PyErr (List Json)
| .str s => .ok (s.toList.map fun c => .str (String.singleton c))
| .arr xs => .ok xs
| .obj kvs => .ok (kvs.map fun kv => Json.str kv.1)
| _ => .error .typeError

/-- Python `container[i]` for a nonnegative integer index: positional
indexing on lists and strings (raising `IndexError` past the end),
`TypeError` on everything else. -/
def pyIndex (container : Json) (i : Nat) : Except PyErr Json :=
  match container with
  | .arr xs =>
    match xs.get? i with
    | some v => .ok v
    | none => .error .indexError
  | .str s =>
    match s.toList.get? i with
    | some c => .ok (.str (String.singleton c))
    | none => .error .indexError
  | _ => .error .typeError

/-- Python `container.get(key, default)`: only dicts have a `.get`
method, so any non-dict receiver raises `AttributeError`. -/
def dictGet (container : Json) (key : String) (dflt : Json) : Except PyErr Json :=
  match container with
  | .obj kvs => .ok ((lookupJ kvs key).getD dflt)
  | _ => .error .attributeError

/-- ASCII whitespace as stripped by Python `str.strip()` (the unicode
whitespace it also strips never occurs in the strings below). -/
def isSpaceChar (c : Char) : Bool :=
  c == ' ' || c == '\t' || c == '\n' || c == '\r' || c == '\x0b' || c == '\x0c'

/-- Drop leading whitespace characters. -/
def dropLeadingWS : List Char → List Char
| [] => []
| c :: rest => if isSpaceChar c then dropLeadingWS rest else c :: rest

/-- Python `s.strip()`: remove leading and trailing whitespace. -/
def pyStrip (s : String) : String :=
  String.mk ((dropLeadingWS (dropLeadingWS s.toList).reverse).reverse)

/-- Value of a digit string, most significant first. -/
def digitsVal (ds : List Char) : Nat :=
  ds.foldl (fun acc c => acc * 10 + (c.toNat - 48)) 0

/-- All characters are decimal digits. -/
def allDigits (ds : List Char) : Bool := ds.all (fun c => c.isDigit)

/-- Split a character list at the first character satisfying `p`,
dropping that character; `none` when no character matches. -/
def splitAtChar (p : Char → Bool) (cs : List Char) : List Char × Option (List Char) :=
  match cs.findIdx? p with
  | none => (cs, none)
  | some i => (cs.take i, some (cs.drop (i + 1)))

/-- Unsigned decimal mantissa `digits[.digits]` as a rational. -/
def parseMantissa (cs : List Char) : Option Rat :=
  let (ip, fpOpt) := splitAtChar (fun c => c == '.') cs
  match fpOpt with
  | none =>
    if allDigits ip ∧ ip ≠ [] then some ((digitsVal ip : Nat) : Rat) else none
  | some fp =>
    if allDigits ip ∧ allDigits fp ∧ (ip ≠ [] ∨ fp ≠ []) then
      some ((digitsVal ip : Rat) + (digitsVal fp : Rat) / ((10 : Rat) ^ fp.length))
    else none

/-- Exponent part after `e`/`E`: optional sign then digits. -/
def parseExpPart (cs : List Char) : Option (Bool × Nat) :=
  let (neg, rest) :=
    match cs with
    | '+' :: r => (false, r)
    | '-' :: r => (true, r)
    | r => (false, r)
  if allDigits rest ∧ rest ≠ [] then some (neg, digitsVal rest) else none

/-- Python `float(s)` on the common decimal and scientific forms:
optional surrounding whitespace, optional sign, `digits[.digits]` with
an optional `e`/`E` exponent.  Exotic accepted spellings (underscore
digit separators, `inf`, `nan`) are not modelled; no property below
depends on them. -/
def parseFloatQ (s : String) : Option Rat :=
  let cs := (pyStrip s).toList
  let (neg, cs1) :=
    match cs with
    | '+' :: r => (false, r)
    | '-' :: r => (true, r)
    | r => (false, r)
  let (mant, expOpt) := splitAtChar (fun c => c == 'e' || c == 'E') cs1
  match parseMantissa mant with
  | none => none
  | some m =>
    let signed := if neg then -m else m
    match expOpt with
    | none => some signed
    | some ec =>
      match parseExpPart ec with
      | none => none
      | some (eneg, e) =>
        some (if eneg then signed / ((10 : Rat) ^ e) else signed * ((10 : Rat) ^ e))

/-- Largest `datetime64[ns]` magnitude, in nanoseconds (`2 ^ 63 - 1`):
epoch-millisecond inputs beyond it are out of bounds and coerce to
`NaT`. -/
def pandasMaxNs : Rat := 9223372036854775807

/-- `pd.to_datetime(v, unit="ms", errors="coerce")` on one scalar cell:
the result is the epoch-millisecond value of the produced timestamp
(`none` standing for `NaT`).  Numbers and numeric strings within the
`datetime64[ns]` range convert to the timestamp with exactly that
epoch-millisecond value; `None`, booleans and non-numeric strings
coerce to `NaT` rather than raising.  A sequence input produces an
index object rather than a scalar timestamp; it is modelled as absent
here, and no property below depends on it. -/
def to_datetime_coerce : Json → Option Rat
| .null => none
| .bool _ => none
| .num q => if |q * 1000000| ≤ pandasMaxNs then some q else none
| .str s =>
  match parseFloatQ s with
  | some q => if |q * 1000000| ≤ pandasMaxNs then some q else none
  | none => none
| .arr _ => none
| .obj _ => none

/-- One row of the normalized table, with the eight fields built by the
record literal in `process_earthquake_data`.  `Json.null` (Python
`None`) is the absent marker for the passthrough fields; `none` (pandas
`NaT`) is the absent marker for `time`. -/
structure EventRecord where
  place : Json
  magnitude : Json
  time : Option Rat
  longitude : Json
  latitude : Json
  depth_km : Json
  tsunami_flag : Json
  felt_reports : Json

/-- A pandas `DataFrame` as used here: a column schema plus rows. -/
structure DataFrame where
  columns : List String
  rows : List EventRecord

/-- The fixed eight-column schema.  The empty branch of
`process_earthquake_data` names these columns explicitly; the non-empty
branch obtains the same columns because every appended record literal
has exactly these eight keys in this insertion order. -/
def fixedColumns : List String :=
  ["place", "magnitude", "time", "longitude", "latitude", "depth_km",
   "tsunami_flag", "felt_reports"]

/-- The value the `coordinates` variable takes when `geometry` has no
`"coordinates"` key: the Python default `[None, None, None]`. -/
def defaultTriple : Json := .arr [.null, .null, .null]

/-- The body of the `for feature in data["features"]` loop: lines 89 to
102 of the source, with the same evaluation order, so that the same
step raises first. -/
def featureToRecord (feature : Json) : Except PyErr EventRecord := do
  let properties ← dictGet feature "properties" (.obj [])
  let geometry ← dictGet feature "geometry" (.obj [])
  let coordinates ← dictGet geometry "coordinates" defaultTriple
  let place ← dictGet properties "place" .null
  let magnitude ← dictGet properties "mag" .null
  let timeVal ← dictGet properties "time" .null
  let longitude ← pyIndex coordinates 0
  let latitude ← pyIndex coordinates 1
  let depth ← pyIndex coordinates 2
  let tsunami ← dictGet properties "tsunami" .null
  let felt ← dictGet properties "felt" .null
  pure { place := place, magnitude := magnitude,
         time := to_datetime_coerce timeVal,
         longitude := longitude, latitude := latitude, depth_km := depth,
         tsunami_flag := tsunami, felt_reports := felt }

/-- The whole loop: records are accumulated in order, and the first
raising iteration aborts the function (the partly built list is
discarded, as the Python exception escapes). -/
def buildRecords : List Json → Except PyErr (List EventRecord)
| [] => .ok []
| f :: fs => do
  let r ← featureToRecord f
  let rs ← buildRecords fs
  .ok (r :: rs)

/-- `process_earthquake_data` (lines 70 to 104).  The guard is the
short-circuit `not data or "features" not in data or
len(data["features"]) == 0`, whose middle and right disjuncts can raise
on non-mapping inputs. -/
def process_earthquake_data (data : Json) : Except PyErr DataFrame := do
  let emptyInput ←
    if data.falsy then pure true
    else do
      let hasF ← pyContains data "features"
      if !hasF then pure true
      else do
        let fv ← pySubscript data "features"
        let n ← pyLen fv
        pure (decide (n = 0))
  if emptyInput then
    pure { columns := fixedColumns, rows := [] }
  else do
    let fv ← pySubscript data "features"
    let items ← pyIter fv
    let rows ← buildRecords items
    pure { columns := fixedColumns, rows := rows }

/-- A diagnostic surfaced through `st.error`, one constructor per
`except` branch of the Fetcher (the catch-all branch carries its
message). -/
inductive Diag where
| timeout
| httpError (status : Nat)
| jsonDecode
| unexpected (msg : String)

/-- The single outbound HTTP request the Fetcher constructs. -/
structure Request where
  url : String
  params : List (String × Json)
  timeout_s : Nat

/-- What the one `requests.get` call produced: a timeout, some other
transport-level exception, or a response with an HTTP status, a body
text, and the result of attempting to parse that body as JSON
(`none` when `response.json()` raises `JSONDecodeError`). -/
inductive NetOutcome where
| timeout
| reqFailure (msg : String)
| ok (status : Nat) (text : String) (parsed : Option Json)

/-- Everything observable about one Fetcher invocation: the returned
payload, the diagnostics emitted via `st.error`, and the outbound
requests issued. -/
structure FetchResult where
  payload : Json
  diags : List Diag
  requests : List Request

/-- The fixed catalog endpoint. -/
def apiUrl : String := "https://earthquake.usgs.gov/fdsnws/event/1/query"

/-- The request built on lines 20 to 28 and issued with `timeout=10`. -/
def mkRequest (min_magnitude : Rat) (limit : Nat) : Request :=
  { url := apiUrl,
    params := [("format", .str "geojson"), ("orderby", .str "time"),
               ("minmagnitude", .num min_magnitude), ("limit", .num (limit : Rat))],
    timeout_s := 10 }

/-- The canonical fallback payload returned by every `except` branch. -/
def emptyPayload : Json := .obj [("features", .arr [])]

/-- `fetch_earthquake_data` (lines 18 to 64).  `raise_for_status`
raises `HTTPError` exactly for statuses 400 to 599.  The plain
`ValueError`s raised for an empty body and for a body without the
expected structure are not `JSONDecodeError`s, so they fall to the
catch-all `except Exception` branch, as does the `TypeError` that the
membership test raises on a scalar body. -/
def fetch_earthquake_data (min_magnitude : Rat) (limit : Nat) (net : NetOutcome) :
    FetchResult :=
  let req := mkRequest min_magnitude limit
  match net with
  | .timeout =>
    { payload := emptyPayload, diags := [.timeout], requests := [req] }
  | .reqFailure msg =>
    { payload := emptyPayload, diags := [.unexpected msg], requests := [req] }
  | .ok status text parsed =>
    if 400 ≤ status ∧ status ≤ 599 then
      { payload := emptyPayload, diags := [.httpError status], requests := [req] }
    else if pyStrip text = "" then
      { payload := emptyPayload,
        diags := [.unexpected "Empty response received from API"], requests := [req] }
    else
      match parsed with
      | none =>
        { payload := emptyPayload, diags := [.jsonDecode], requests := [req] }
      | some data =>
        match pyContains data "features" with
        | .error _ =>
          { payload := emptyPayload,
            diags := [.unexpected "TypeError raised by the membership test"],
            requests := [req] }
        | .ok true =>
          { payload := data, diags := [], requests := [req] }
        | .ok false =>
          { payload := emptyPayload,
            diags := [.unexpected "Unexpected API response structure"],
            requests := [req] }

/-- Scalar values on which the timestamp coercion of the source is
exercised by the properties below: absent-or-`None`, numbers and
strings (sequence and mapping inputs to `pd.to_datetime` are outside
every property's hypotheses). -/
def scalarTime : Json → Bool
| .null => true
| .num _ => true
| .str _ => true
| _ => false

/-- The `time` entry of a properties mapping, when present, is a
scalar. -/
def timeFieldOk (ps : List (String × Json)) : Bool :=
  match lookupJ ps "time" with
  | none => true
  | some t => scalarTime t

/-- A well-formed `Feature` in the sense of the data model: a mapping
whose `properties` and `geometry` entries, when present, are mappings,
whose `geometry.coordinates` entry, when present, is an array with at
least three positions, and whose `properties.time` entry, when
present, is a scalar. -/
def wellFormedFeature (f : Json) : Bool :=
  match f with
  | .obj kvs =>
    (match (lookupJ kvs "properties").getD (.obj []) with
     | .obj ps => timeFieldOk ps
     | _ => false)
    &&
    (match (lookupJ kvs "geometry").getD (.obj []) with
     | .obj gs =>
       (match lookupJ gs "coordinates" with
        | none => true
        | some (.arr cs) => decide (3 ≤ cs.length)
        | some _ => false)
     | _ => false)
  | _ => false

/-- A payload that is `None` or a mapping whose `features` entry, when
present, is an array of well-formed features. -/
def wellFormedPayload : Json → Bool
| .null => true
| .obj kvs =>
  (match lookupJ kvs "features" with
   | none => true
   | some (.arr fs) => fs.all wellFormedFeature
   | some _ => false)
| _ => false

/-- The value the loop body binds to its `coordinates` variable: the
`"coordinates"` entry of the resolved `geometry` mapping, defaulting to
the `[None, None, None]` triple. -/
def resolvedCoordinates (feature : Json) : Except PyErr Json := do
  let geometry ← dictGet feature "geometry" (.obj [])
  dictGet geometry "coordinates" defaultTriple

/-- Whether a JSON value is a mapping with a top-level `features`
key. -/
def hasFeaturesKey : Json → Bool
| .obj kvs => (lookupJ kvs "features").isSome
| _ => false

/-- Whether an embedded operation succeeded without raising. -/
def pyOk {α : Type} : Except PyErr α → Bool
| .ok _ => true
| .error _ => false

/-- A fully populated well-formed feature, matching the single-feature
scenario of the specification. -/
def sampleFeature : Json :=
  .obj [("properties", .obj [("place", .str "10km N of Test"), ("mag", .num 4),
                             ("time", .num 1700000000000)]),
        ("geometry", .obj [("coordinates", .arr [.num (-122), .num 37, .num 10])])]

@[simp] theorem ok_bind {α β : Type} (a : α) (f : α → Except PyErr β) :
    (Except.ok a >>= f) = f a := rfl

@[simp] theorem error_bind {α β : Type} (e : PyErr) (f : α → Except PyErr β) :
    ((Except.error e : Except PyErr α) >>= f) = .error e := rfl

@[simp] theorem pure_except {α : Type} (a : α) :
    (pure a : Except PyErr α) = .ok a := rfl

theorem process_null_eval :
    process_earthquake_data .null = .ok { columns := fixedColumns, rows := [] } := rfl

theorem process_no_features (kvs : List (String × Json))
    (h : lookupJ kvs "features" = none) :
    process_earthquake_data (.obj kvs) = .ok { columns := fixedColumns, rows := [] } := by
  cases kvs with
  | nil => rfl
  | cons kv rest =>
    simp [process_earthquake_data, Json.falsy, pyContains, h]

theorem process_features_nil (kvs : List (String × Json))
    (h : lookupJ kvs "features" = some (.arr [])) :
    process_earthquake_data (.obj kvs) = .ok { columns := fixedColumns, rows := [] } := by
  cases kvs with
  | nil => simp [lookupJ] at h
  | cons kv rest =>
    simp [process_earthquake_data, Json.falsy, pyContains, pySubscript, pyLen, h]

theorem process_features_build (kvs : List (String × Json)) (f : Json) (fs : List Json)
    (h : lookupJ kvs "features" = some (.arr (f :: fs))) :
    process_earthquake_data (.obj kvs) =
      buildRecords (f :: fs) >>= fun rows =>
        .ok { columns := fixedColumns, rows := rows } := by
  cases kvs with
  | nil => simp [lookupJ] at h
  | cons kv rest =>
    simp [process_earthquake_data, Json.falsy, pyContains, pySubscript, pyLen, pyIter, h]
theorem exists_ok_of_pyOk {α : Type} (e : Except PyErr α) (h : pyOk e = true) :
    ∃ a, e = .ok a := by
  cases e with
  | ok a => exact ⟨a, rfl⟩
  | error e => simp [pyOk] at h

theorem featureToRecord_ok_of_wf (f : Json) (h : wellFormedFeature f = true) :
    ∃ r, featureToRecord f = .ok r := by
  apply exists_ok_of_pyOk
  cases f with
  | null => simp [wellFormedFeature] at h
  | bool b => simp [wellFormedFeature] at h
  | num q => simp [wellFormedFeature] at h
  | str s => simp [wellFormedFeature] at h
  | arr xs => simp [wellFormedFeature] at h
  | obj kvs =>
    simp only [wellFormedFeature, Bool.and_eq_true] at h
    obtain ⟨h1, h2⟩ := h
    split at h1
    case h_2 => simp at h1
    case h_1 ps hp =>
      split at h2
      case h_2 => simp at h2
      case h_1 gs hg =>
        split at h2
        case h_1 hc =>
          simp [featureToRecord, dictGet, hp, hg, hc, defaultTriple, pyIndex, pyOk]
        case h_2 cs hc =>
          have hlen : 3 ≤ cs.length := by simpa using h2
          obtain ⟨v0, g0⟩ : ∃ v, cs[0]? = some v := ⟨_, List.getElem?_eq_getElem (by omega)⟩
          obtain ⟨v1, g1⟩ : ∃ v, cs[1]? = some v := ⟨_, List.getElem?_eq_getElem (by omega)⟩
          obtain ⟨v2, g2⟩ : ∃ v, cs[2]? = some v := ⟨_, List.getElem?_eq_getElem (by omega)⟩
          simp [featureToRecord, dictGet, hp, hg, hc, pyIndex, g0, g1, g2, pyOk]
        case h_3 hc => simp at h2

theorem buildRecords_ok (fs : List Json) (h : ∀ f ∈ fs, wellFormedFeature f = true) :
    ∃ rs, buildRecords fs = .ok rs ∧ rs.length = fs.length ∧
      ∀ (i : Nat) (hi : i < fs.length) (hr : i < rs.length),
        featureToRecord (fs.get ⟨i, hi⟩) = .ok (rs.get ⟨i, hr⟩) := by
  induction fs with
  | nil =>
    refine ⟨[], rfl, rfl, ?_⟩
    intro i hi hr
    exact absurd hi (by simp)
  | cons f fs ih =>
    obtain ⟨r, hr⟩ := featureToRecord_ok_of_wf f (h f (List.mem_cons_self f fs))
    obtain ⟨rs, hbs, hlen, hpt⟩ := ih (fun g hg => h g (List.mem_cons_of_mem f hg))
    refine ⟨r :: rs, ?_, ?_, ?_⟩
    · simp [buildRecords, hr, hbs]
    · simp [hlen]
    · intro i hi hri
      cases i with
      | zero => exact hr
      | succ n =>
        simp only [List.get_cons_succ]
        exact hpt n (by simpa using hi) (by simpa using hri)

/-- C1: the claim asserts that for every valid filter `fetch` never
raises and always returns a non-null payload containing the top-level
`features` key.  The code slips on non-mapping JSON bodies: a 200
response whose body parses to the JSON array holding the single string
"features" passes the membership test `"features" not in data` (Python
list membership), so `fetch` returns that array as the payload with no
diagnostic, yet the array is not a mapping and has no `features` key,
and the Normalizer then raises a `TypeError` on it. -/
theorem fetch_structure_check_slip :
    fetch_earthquake_data 2.5 100
        (.ok 200 "[\"features\"]" (some (.arr [.str "features"]))) =
      { payload := .arr [.str "features"], diags := [],
        requests := [mkRequest 2.5 100] } ∧
    hasFeaturesKey (.arr [.str "features"]) = false ∧
    process_earthquake_data (.arr [.str "features"]) = .error .typeError :=
  ⟨rfl, rfl, rfl⟩

/-- C2 counterexample: the claim asserts `normalize` is total over
every payload shape the Fetcher can produce and every Feature shape.
The payload holding `features = [5]` passes every Fetcher check (first
conjunct), yet `process_earthquake_data` raises an `AttributeError`
when the loop body calls `.get` on the non-mapping feature `5` (second
conjunct), so the claim as stated is false. -/
theorem process_raises_on_nonmapping_feature :
    fetch_earthquake_data 2.5 100
        (.ok 200 "x" (some (.obj [("features", .arr [.num 5])]))) =
      { payload := .obj [("features", .arr [.num 5])], diags := [],
        requests := [mkRequest 2.5 100] } ∧
    process_earthquake_data (.obj [("features", .arr [.num 5])]) =
      .error .attributeError :=
  ⟨rfl, rfl⟩

/-- C2 amended: `normalize` is total over payloads that are null or
mappings whose `features` entry, when present, is an array of
well-formed features (features that are mappings whose `properties`
and `geometry` sub-values, when present, are mappings, whose
`geometry.coordinates`, when present, has at least three positions,
and whose `properties.time`, when present, is a scalar); on every such
payload it returns a frame with the fixed eight-column schema without
raising. -/
theorem process_total_on_wellformed (d : Json) (h : wellFormedPayload d = true) :
    ∃ rows, process_earthquake_data d = .ok { columns := fixedColumns, rows := rows } := by
  cases d with
  | null => exact ⟨[], rfl⟩
  | bool b => simp [wellFormedPayload] at h
  | num q => simp [wellFormedPayload] at h
  | str s => simp [wellFormedPayload] at h
  | arr xs => simp [wellFormedPayload] at h
  | obj kvs =>
    simp only [wellFormedPayload] at h
    split at h
    case h_1 hl => exact ⟨[], process_no_features kvs hl⟩
    case h_2 fs hl =>
      cases fs with
      | nil => exact ⟨[], process_features_nil kvs hl⟩
      | cons f fs =>
        have hwf : ∀ g ∈ f :: fs, wellFormedFeature g = true := by
          intro g hg
          exact List.all_eq_true.mp h g hg
        obtain ⟨rs, hbs, -, -⟩ := buildRecords_ok (f :: fs) hwf
        refine ⟨rs, ?_⟩
        rw [process_features_build kvs f fs hl, hbs]
        rfl
    case h_3 hl => simp at h

/-- C2 witness: a payload with one fully populated well-formed feature
normalizes without raising. -/
theorem process_total_on_wellformed_witness :
    ∃ rows, process_earthquake_data
      (.obj [("features", .arr
        [.obj [("properties", .obj [("place", .str "10km N of Test"), ("mag", .num 4),
                                    ("time", .num 1700000000000)]),
               ("geometry", .obj [("coordinates", .arr [.num (-122), .num 37, .num 10])])]])]) =
      .ok { columns := fixedColumns, rows := rows } :=
  process_total_on_wellformed _ (by decide)

/-- C3: a payload whose `features` entry is an array of N well-formed
features normalizes to exactly N records, one per feature, in input
order: the i-th output row is the record of the i-th input feature. -/
theorem process_record_count_and_order (kvs : List (String × Json)) (fs : List Json)
    (hl : lookupJ kvs "features" = some (.arr fs))
    (hwf : ∀ f ∈ fs, wellFormedFeature f = true) :
    ∃ rs, process_earthquake_data (.obj kvs) = .ok { columns := fixedColumns, rows := rs } ∧
      rs.length = fs.length ∧
      ∀ (i : Nat) (hi : i < fs.length) (hr : i < rs.length),
        featureToRecord (fs.get ⟨i, hi⟩) = .ok (rs.get ⟨i, hr⟩) := by
  cases fs with
  | nil =>
    refine ⟨[], process_features_nil kvs hl, rfl, ?_⟩
    intro i hi hr
    exact absurd hi (by simp)
  | cons f fs =>
    obtain ⟨rs, hbs, hlen, hpt⟩ := buildRecords_ok (f :: fs) hwf
    refine ⟨rs, ?_, hlen, hpt⟩
    rw [process_features_build kvs f fs hl, hbs]
    rfl

/-- C3 witness: one well-formed feature yields exactly one record. -/
theorem process_record_count_and_order_witness :
    ∃ rs, process_earthquake_data (.obj [("features", .arr [sampleFeature])]) =
        .ok { columns := fixedColumns, rows := rs } ∧
      rs.length = [sampleFeature].length ∧
      ∀ (i : Nat) (hi : i < [sampleFeature].length) (hr : i < rs.length),
        featureToRecord ([sampleFeature].get ⟨i, hi⟩) = .ok (rs.get ⟨i, hr⟩) :=
  process_record_count_and_order [("features", .arr [sampleFeature])] [sampleFeature]
    rfl (by decide)

/-- C4 counterexample: the claim asserts that a feature lacking a
`geometry.coordinates` triple yields a record with longitude, latitude
and depth all absent.  A feature whose `coordinates` is present but
shorter than three positions lacks a triple, yet the code raises an
`IndexError` instead of producing any record, so the claim as stated
is false. -/
theorem process_raises_on_short_coordinates :
    process_earthquake_data
        (.obj [("features", .arr
          [.obj [("geometry", .obj [("coordinates", .arr [.num 7])])]])]) =
      .error .indexError := rfl

/-- C4 amended: for every feature from which a record is produced, the
three coordinate fields are taken atomically from one resolved
`geometry.coordinates` value, as its positions 0, 1 and 2; when that
value is the default triple (the `coordinates` key being absent), all
three fields are absent.  A present-but-short `coordinates` aborts
normalization rather than yielding a partial record. -/
theorem coordinate_triple_atomicity (f : Json) (r : EventRecord)
    (h : featureToRecord f = .ok r) :
    ∃ c, resolvedCoordinates f = .ok c ∧
      pyIndex c 0 = .ok r.longitude ∧ pyIndex c 1 = .ok r.latitude ∧
      pyIndex c 2 = .ok r.depth_km ∧
      (c = defaultTriple →
        r.longitude = .null ∧ r.latitude = .null ∧ r.depth_km = .null) := by
  simp only [featureToRecord] at h
  cases h1 : dictGet f "properties" (.obj []) with
  | error e => rw [h1] at h; simp at h
  | ok properties =>
    rw [h1] at h
    rw [ok_bind] at h
    cases h2 : dictGet f "geometry" (.obj []) with
    | error e => rw [h2] at h; simp at h
    | ok geometry =>
      rw [h2, ok_bind] at h
      cases h3 : dictGet geometry "coordinates" defaultTriple with
      | error e => rw [h3] at h; simp at h
      | ok c =>
        rw [h3, ok_bind] at h
        cases h4 : dictGet properties "place" .null with
        | error e => rw [h4] at h; simp at h
        | ok place =>
          rw [h4, ok_bind] at h
          cases h5 : dictGet properties "mag" .null with
          | error e => rw [h5] at h; simp at h
          | ok mag =>
            rw [h5, ok_bind] at h
            cases h6 : dictGet properties "time" .null with
            | error e => rw [h6] at h; simp at h
            | ok timeVal =>
              rw [h6, ok_bind] at h
              cases hL : pyIndex c 0 with
              | error e => rw [hL] at h; simp at h
              | ok lon =>
                rw [hL, ok_bind] at h
                cases hA : pyIndex c 1 with
                | error e => rw [hA] at h; simp at h
                | ok lat =>
                  rw [hA, ok_bind] at h
                  cases hD : pyIndex c 2 with
                  | error e => rw [hD] at h; simp at h
                  | ok dep =>
                    rw [hD, ok_bind] at h
                    cases h7 : dictGet properties "tsunami" .null with
                    | error e => rw [h7] at h; simp at h
                    | ok tsu =>
                      rw [h7, ok_bind] at h
                      cases h8 : dictGet properties "felt" .null with
                      | error e => rw [h8] at h; simp at h
                      | ok felt =>
                        rw [h8, ok_bind] at h
                        simp only [pure_except, Except.ok.injEq] at h
                        subst h
                        refine ⟨c, ?_, hL, hA, hD, ?_⟩
                        · simp [resolvedCoordinates, h2, h3]
                        · intro hc
                          subst hc
                          simp only [defaultTriple] at hL hA hD
                          have e0 : pyIndex (Json.arr [.null, .null, .null]) 0 = .ok .null := rfl
                          have e1 : pyIndex (Json.arr [.null, .null, .null]) 1 = .ok .null := rfl
                          have e2 : pyIndex (Json.arr [.null, .null, .null]) 2 = .ok .null := rfl
                          rw [e0] at hL
                          rw [e1] at hA
                          rw [e2] at hD
                          cases hL
                          cases hA
                          cases hD
                          exact ⟨rfl, rfl, rfl⟩

/-- C4 witness: the empty-mapping feature resolves to the default
triple and yields the all-absent coordinate fields. -/
theorem coordinate_triple_atomicity_witness :
    ∃ c, resolvedCoordinates (.obj []) = .ok c ∧
      pyIndex c 0 = .ok Json.null ∧ pyIndex c 1 = .ok Json.null ∧
      pyIndex c 2 = .ok Json.null ∧
      (c = defaultTriple →
        Json.null = Json.null ∧ Json.null = Json.null ∧ Json.null = Json.null) :=
  coordinate_triple_atomicity (.obj [])
    { place := .null, magnitude := .null, time := none, longitude := .null,
      latitude := .null, depth_km := .null, tsunami_flag := .null,
      felt_reports := .null } rfl

/-- C5: a payload that is null, or a mapping without the `features`
key, or a mapping whose `features` entry is the empty array,
normalizes to zero rows under exactly the fixed eight-column schema
place, magnitude, time, longitude, latitude, depth_km, tsunami_flag,
felt_reports, in that order. -/
theorem process_empty_schema (d : Json)
    (h : d = .null ∨ (∃ kvs, d = .obj kvs ∧ lookupJ kvs "features" = none) ∨
      (∃ kvs, d = .obj kvs ∧ lookupJ kvs "features" = some (.arr []))) :
    process_earthquake_data d =
      .ok { columns := ["place", "magnitude", "time", "longitude", "latitude",
                        "depth_km", "tsunami_flag", "felt_reports"], rows := [] } := by
  rcases h with h | ⟨kvs, rfl, hl⟩ | ⟨kvs, rfl, hl⟩
  · subst h; rfl
  · exact process_no_features kvs hl
  · exact process_features_nil kvs hl

/-- C5 witness: the canonical empty payload normalizes to the empty
frame with the eight named columns. -/
theorem process_empty_schema_witness :
    process_earthquake_data (.obj [("features", .arr [])]) =
      .ok { columns := ["place", "magnitude", "time", "longitude", "latitude",
                        "depth_km", "tsunami_flag", "felt_reports"], rows := [] } :=
  process_empty_schema (.obj [("features", .arr [])])
    (Or.inr (Or.inr ⟨[("features", .arr [])], rfl, rfl⟩))

/-- C9: for a feature whose `geometry.coordinates` is an array with
three or more elements, the record is produced without error, its
longitude, latitude and depth are the elements at positions 0, 1 and 2,
and every element beyond the third is ignored: truncating the array to
its first three elements produces the identical record.  (The
`properties` mapping is arbitrary, with a scalar `time` entry so that
the timestamp coercion is the source's scalar coercion.) -/
theorem coordinates_extra_elements_ignored (props : List (String × Json))
    (cs : List Json) (_ht : timeFieldOk props = true) (hlen : 3 ≤ cs.length) :
    ∃ r, featureToRecord
        (.obj [("properties", .obj props),
               ("geometry", .obj [("coordinates", .arr cs)])]) = .ok r ∧
      cs.get? 0 = some r.longitude ∧ cs.get? 1 = some r.latitude ∧
      cs.get? 2 = some r.depth_km ∧
      featureToRecord
        (.obj [("properties", .obj props),
               ("geometry", .obj [("coordinates", .arr (cs.take 3))])]) = .ok r := by
  match cs, hlen with
  | c0 :: c1 :: c2 :: rest, _ =>
    refine ⟨{ place := (lookupJ props "place").getD .null,
              magnitude := (lookupJ props "mag").getD .null,
              time := to_datetime_coerce ((lookupJ props "time").getD .null),
              longitude := c0, latitude := c1, depth_km := c2,
              tsunami_flag := (lookupJ props "tsunami").getD .null,
              felt_reports := (lookupJ props "felt").getD .null },
            rfl, rfl, rfl, rfl, rfl⟩

/-- C9 witness: a four-element coordinates array is handled by taking
its first three elements and ignoring the fourth. -/
theorem coordinates_extra_elements_ignored_witness :
    ∃ r, featureToRecord
        (.obj [("properties", .obj []),
               ("geometry", .obj [("coordinates",
                  .arr [.num 7, .num 8, .num 9, .num 10])])]) = .ok r ∧
      [Json.num 7, .num 8, .num 9, .num 10].get? 0 = some r.longitude ∧
      [Json.num 7, .num 8, .num 9, .num 10].get? 1 = some r.latitude ∧
      [Json.num 7, .num 8, .num 9, .num 10].get? 2 = some r.depth_km ∧
      featureToRecord
        (.obj [("properties", .obj []),
               ("geometry", .obj [("coordinates",
                  .arr ([Json.num 7, .num 8, .num 9, .num 10].take 3))])]) = .ok r :=
  coordinates_extra_elements_ignored [] [.num 7, .num 8, .num 9, .num 10] rfl (by decide)

/-- C7: timestamp coercion is non-fatal and value-preserving.  For a
feature whose properties are otherwise arbitrary (scalar `time`), the
batch normalizes without error to one record whose `time` field is the
coercion of `properties.time`; in particular `time = 1700000000000`
yields the timestamp with exactly that epoch-millisecond value, while
a missing `time` or the non-numeric string "not-a-timestamp" yields
the absent marker. -/
theorem timestamp_coercion_nonfatal (props : List (String × Json))
    (_hx : timeFieldOk props = true) :
    ∃ r, process_earthquake_data
        (.obj [("features", .arr [.obj [("properties", .obj props)]])]) =
        .ok { columns := fixedColumns, rows := [r] } ∧
      r.time = to_datetime_coerce ((lookupJ props "time").getD .null) ∧
      (lookupJ props "time" = some (.num 1700000000000) → r.time = some 1700000000000) ∧
      (lookupJ props "time" = none → r.time = none) ∧
      (lookupJ props "time" = some (.str "not-a-timestamp") → r.time = none) := by
  have e1 : featureToRecord (.obj [("properties", .obj props)]) = .ok
      { place := (lookupJ props "place").getD .null,
        magnitude := (lookupJ props "mag").getD .null,
        time := to_datetime_coerce ((lookupJ props "time").getD .null),
        longitude := .null, latitude := .null, depth_km := .null,
        tsunami_flag := (lookupJ props "tsunami").getD .null,
        felt_reports := (lookupJ props "felt").getD .null } := rfl
  refine ⟨{ place := (lookupJ props "place").getD .null,
            magnitude := (lookupJ props "mag").getD .null,
            time := to_datetime_coerce ((lookupJ props "time").getD .null),
            longitude := .null, latitude := .null, depth_km := .null,
            tsunami_flag := (lookupJ props "tsunami").getD .null,
            felt_reports := (lookupJ props "felt").getD .null },
          ?_, rfl, ?_, ?_, ?_⟩
  · rw [process_features_build [("features", .arr [.obj [("properties", .obj props)]])]
        (.obj [("properties", .obj props)]) [] rfl]
    simp [buildRecords, e1]
  · intro ht
    rw [ht]
    simp only [Option.getD_some, to_datetime_coerce]
    rw [if_pos ?_]
    rw [abs_of_nonneg (by norm_num)]
    rw [pandasMaxNs]
    norm_num
  · intro ht
    rw [ht]
    rfl
  · intro ht
    rw [ht]
    rfl

/-- C7 witness: the epoch-millisecond value 1700000000000 survives
coercion exactly, and the batch normalizes without error. -/
theorem timestamp_coercion_nonfatal_witness :
    ∃ r, process_earthquake_data
        (.obj [("features", .arr [.obj [("properties",
          .obj [("time", .num 1700000000000)])]])]) =
        .ok { columns := fixedColumns, rows := [r] } ∧
      r.time = some 1700000000000 := by
  obtain ⟨r, h1, -, h3, -, -⟩ :=
    timestamp_coercion_nonfatal [("time", .num 1700000000000)] rfl
  exact ⟨r, h1, h3 rfl⟩

/-- C8: every invocation of the Fetcher issues exactly one outbound
GET request — whatever the network outcome, including every failure
path, so no retry ever happens — and that request goes to the fixed
catalog endpoint with query parameters format=geojson, orderby=time,
minmagnitude from the filter's minimum magnitude, limit from the
filter's limit, and a timeout of 10 time units. -/
theorem fetch_single_request_shape (mm : Rat) (l : Nat) (net : NetOutcome) :
    (fetch_earthquake_data mm l net).requests =
      [{ url := "https://earthquake.usgs.gov/fdsnws/event/1/query",
         params := [("format", .str "geojson"), ("orderby", .str "time"),
                    ("minmagnitude", .num mm), ("limit", .num (l : Rat))],
         timeout_s := 10 }] := by
  cases net with
  | timeout => rfl
  | reqFailure msg => rfl
  | ok s t p =>
    simp only [fetch_earthquake_data]
    split_ifs
    · rfl
    · rfl
    · cases p with
      | none => rfl
      | some dat =>
        cases hcp : pyContains dat "features" with
        | error e => simp [hcp, mkRequest, apiUrl]
        | ok b => cases b <;> simp [hcp, mkRequest, apiUrl]

/-- C6: on every validation failure the Fetcher returns the canonical
empty payload and emits exactly one diagnostic, while on the success
path it emits none and returns the parsed body (first conjunct); the
remaining conjuncts show the diagnostic is classified by the failure
kind: timeout, transport failure, HTTP error status, empty body,
undecodable body, and unexpected structure each produce their own
diagnostic. -/
theorem fetch_diagnostic_discipline (mm : Rat) (l : Nat) (net : NetOutcome) :
    (((fetch_earthquake_data mm l net).payload = emptyPayload ∧
        ∃ d, (fetch_earthquake_data mm l net).diags = [d]) ∨
      ((fetch_earthquake_data mm l net).diags = [] ∧
        ∃ s t dat, net = .ok s t (some dat) ∧ pyContains dat "features" = .ok true ∧
          (fetch_earthquake_data mm l net).payload = dat)) ∧
    (net = .timeout → (fetch_earthquake_data mm l net).diags = [.timeout]) ∧
    (∀ msg, net = .reqFailure msg →
      (fetch_earthquake_data mm l net).diags = [.unexpected msg]) ∧
    (∀ s t p, net = .ok s t p → 400 ≤ s ∧ s ≤ 599 →
      (fetch_earthquake_data mm l net).diags = [.httpError s]) ∧
    (∀ s t p, net = .ok s t p → ¬(400 ≤ s ∧ s ≤ 599) → pyStrip t = "" →
      (fetch_earthquake_data mm l net).diags =
        [.unexpected "Empty response received from API"]) ∧
    (∀ s t, net = .ok s t none → ¬(400 ≤ s ∧ s ≤ 599) → pyStrip t ≠ "" →
      (fetch_earthquake_data mm l net).diags = [.jsonDecode]) ∧
    (∀ s t dat, net = .ok s t (some dat) → ¬(400 ≤ s ∧ s ≤ 599) → pyStrip t ≠ "" →
      pyContains dat "features" = .ok false →
      (fetch_earthquake_data mm l net).diags =
        [.unexpected "Unexpected API response structure"]) := by
  cases net with
  | timeout =>
    refine ⟨Or.inl ⟨rfl, ⟨.timeout, rfl⟩⟩, fun _ => rfl, ?_, ?_, ?_, ?_, ?_⟩
    · intro msg hmsg; cases hmsg
    · intro s t p hp; cases hp
    · intro s t p hp; cases hp
    · intro s t hp; cases hp
    · intro s t dat hp; cases hp
  | reqFailure m =>
    refine ⟨Or.inl ⟨rfl, ⟨.unexpected m, rfl⟩⟩, ?_, ?_, ?_, ?_, ?_, ?_⟩
    · intro hmsg; cases hmsg
    · intro msg hmsg; cases hmsg; rfl
    · intro s t p hp; cases hp
    · intro s t p hp; cases hp
    · intro s t hp; cases hp
    · intro s t dat hp; cases hp
  | ok s t p =>
    by_cases hs : 400 ≤ s ∧ s ≤ 599
    · have hf : fetch_earthquake_data mm l (.ok s t p) =
          { payload := emptyPayload, diags := [.httpError s],
            requests := [mkRequest mm l] } := by
        simp only [fetch_earthquake_data]
        rw [if_pos hs]
      refine ⟨Or.inl ⟨by rw [hf], ⟨.httpError s, by rw [hf]⟩⟩, ?_, ?_, ?_, ?_, ?_, ?_⟩
      · intro hp; cases hp
      · intro msg hp; cases hp
      · intro a b c hp _; cases hp; rw [hf]
      · intro a b c hp hneg; cases hp; exact absurd hs hneg
      · intro a b hp hneg; cases hp; exact absurd hs hneg
      · intro a b dat hp hneg; cases hp; exact absurd hs hneg
    · by_cases ht : pyStrip t = ""
      · have hf : fetch_earthquake_data mm l (.ok s t p) =
            { payload := emptyPayload,
              diags := [.unexpected "Empty response received from API"],
              requests := [mkRequest mm l] } := by
          simp only [fetch_earthquake_data]
          rw [if_neg hs, if_pos ht]
        refine ⟨Or.inl ⟨by rw [hf], ⟨_, by rw [hf]⟩⟩, ?_, ?_, ?_, ?_, ?_, ?_⟩
        · intro hp; cases hp
        · intro msg hp; cases hp
        · intro a b c hp habs; cases hp; exact absurd habs hs
        · intro a b c hp _ _; cases hp; rw [hf]
        · intro a b hp _ habs; cases hp; exact absurd ht habs
        · intro a b dat hp _ habs; cases hp; exact absurd ht habs
      · cases p with
        | none =>
          have hf : fetch_earthquake_data mm l (.ok s t none) =
              { payload := emptyPayload, diags := [.jsonDecode],
                requests := [mkRequest mm l] } := by
            simp only [fetch_earthquake_data]
            rw [if_neg hs, if_neg ht]
          refine ⟨Or.inl ⟨by rw [hf], ⟨_, by rw [hf]⟩⟩, ?_, ?_, ?_, ?_, ?_, ?_⟩
          · intro hp; cases hp
          · intro msg hp; cases hp
          · intro a b c hp habs; cases hp; exact absurd habs hs
          · intro a b c hp _ habs; cases hp; exact absurd habs ht
          · intro a b hp _ _; cases hp; rw [hf]
          · intro a b dat hp; cases hp
        | some dat =>
          cases hcp : pyContains dat "features" with
          | error e =>
            have hf : fetch_earthquake_data mm l (.ok s t (some dat)) =
                { payload := emptyPayload,
                  diags := [.unexpected "TypeError raised by the membership test"],
                  requests := [mkRequest mm l] } := by
              simp only [fetch_earthquake_data]
              rw [if_neg hs, if_neg ht, hcp]
            refine ⟨Or.inl ⟨by rw [hf], ⟨_, by rw [hf]⟩⟩, ?_, ?_, ?_, ?_, ?_, ?_⟩
            · intro hp; cases hp
            · intro msg hp; cases hp
            · intro a b c hp habs; cases hp; exact absurd habs hs
            · intro a b c hp _ habs; cases hp; exact absurd habs ht
            · intro a b hp; cases hp
            · intro a b dd hp _ _ hok; cases hp; rw [hcp] at hok; cases hok
          | ok b =>
            cases b with
            | true =>
              have hf : fetch_earthquake_data mm l (.ok s t (some dat)) =
                  { payload := dat, diags := [], requests := [mkRequest mm l] } := by
                simp only [fetch_earthquake_data]
                rw [if_neg hs, if_neg ht, hcp]
              refine ⟨Or.inr ⟨by rw [hf], s, t, dat, rfl, hcp, by rw [hf]⟩,
                      ?_, ?_, ?_, ?_, ?_, ?_⟩
              · intro hp; cases hp
              · intro msg hp; cases hp
              · intro a b c hp habs; cases hp; exact absurd habs hs
              · intro a b c hp _ habs; cases hp; exact absurd habs ht
              · intro a b hp; cases hp
              · intro a b dd hp _ _ hok; cases hp; rw [hcp] at hok; cases hok
            | false =>
              have hf : fetch_earthquake_data mm l (.ok s t (some dat)) =
                  { payload := emptyPayload,
                    diags := [.unexpected "Unexpected API response structure"],
                    requests := [mkRequest mm l] } := by
                simp only [fetch_earthquake_data]
                rw [if_neg hs, if_neg ht, hcp]
              refine ⟨Or.inl ⟨by rw [hf], ⟨_, by rw [hf]⟩⟩, ?_, ?_, ?_, ?_, ?_, ?_⟩
              · intro hp; cases hp
              · intro msg hp; cases hp
              · intro a b c hp habs; cases hp; exact absurd habs hs
              · intro a b c hp _ habs; cases hp; exact absurd habs ht
              · intro a b hp; cases hp
              · intro a b dd hp _ _ _; cases hp; rw [hf]

/-- C6 witness: a timeout produces the canonical empty payload and
exactly the timeout-classified diagnostic. -/
theorem fetch_diagnostic_discipline_witness :
    (fetch_earthquake_data 2.5 100 .timeout).payload = emptyPayload ∧
    (fetch_earthquake_data 2.5 100 .timeout).diags = [.timeout] := by
  obtain ⟨h1, h2, -, -, -, -, -⟩ := fetch_diagnostic_discipline 2.5 100 .timeout
  refine ⟨?_, h2 rfl⟩
  rcases h1 with ⟨hp, -⟩ | ⟨-, s, t, dat, hnet, -⟩
  · exact hp
  · cases hnet
